/-
Verification of the Modbus slave-server core (`pymodbus_gui/core/slave_server.py`)
against its natural-language specification.

The Python classes `RegisterPoint`, `FileRecordConfig`, `SlaveConfig`,
`OperationResult` and `ModbusSlave` are shallowly embedded as Lean structures
and pure state-passing functions.  Notes on the embedding:

* The register datastore itself lives in the external `pymodbus` library
  (`ModbusSequentialDataBlock` / `ModbusSlaveContext`), which is not part of
  this repository; it is modelled from the spec (section 4.1): four
  independently sized banks, `get`/`set` failing when the requested range
  exceeds the bank's configured size.  A failing `set` corresponds to the
  exception caught by the seeding loop.
* Python `Any` values fed to `int(...)` are modelled by `PyValue`; values
  written through `write_register` are modelled as `Int` (Python integers).
* Bank names are a closed enumeration (the four recognised strings); the
  "invalid register type" branch of the string dispatch is therefore
  unrepresentable here.
* Error strings are abstracted into the inductive `SlaveError`, one
  constructor per distinct error message of the source.
* Byte strings are `List Nat`; the filesystem is a map from path to contents,
  threaded through the state.  Disk I/O and callback exceptions are not
  modelled (the code logs and continues); thread/event-loop internals of
  `start`/`stop` are reduced to the `running` flag transitions they perform.
* The value-changed callback is modelled by the list of invocations a call
  performs, returned alongside the result.
-/
import Mathlib

set_option linter.unusedVariables false
set_option maxRecDepth 16384

/-- The four register banks (`register_type` strings of the source). -/
inductive RegisterType where
  | coil
  | discrete_input
  | holding_register
  | input_register
deriving DecidableEq, Repr

/-- A Python value handed to `int(...)`: either a value that coerces to an
integer (an int, a numeric string, ...) or one on which `int()` raises. -/
inductive PyValue where
  | intv (n : Int)
  | nonnumeric
deriving DecidableEq, Repr

/-- Python `int(value)`: the coerced integer, or `none` modelling the
raised exception the seeding loop catches. -/
def pyIntCoerce : PyValue → Option Int
  | .intv n => some n
  | .nonnumeric => none

/-- `RegisterPoint` dataclass of the source. -/
structure RegisterPoint where
  address : Nat
  name : String
  register_type : RegisterType
  value : PyValue := .intv 0
  description : String := ""
  unit : String := ""
  min_value : Option Int := none
  max_value : Option Int := none
  read_only : Bool := false
deriving DecidableEq, Repr

/-- `RegisterPoint.validate_value`: boolean banks accept only 0/1; numeric
banks check the optional min/max bounds. -/
def RegisterPoint.validate_value (p : RegisterPoint) (v : Int) : Bool :=
  match p.register_type with
  | .coil | .discrete_input => decide (v = 0 ∨ v = 1)
  | _ =>
    (match p.min_value with
     | some m => decide (¬ v < m)
     | none => true) &&
    (match p.max_value with
     | some m => decide (¬ m < v)
     | none => true)

/-- `FileRecordConfig` dataclass of the source. -/
structure FileRecordConfig where
  file_number : Nat
  file_path : String
  max_size : Nat := 65535
  file_length : Option Nat := none
  trigger_enabled : Bool := false
  trigger_function_code : Nat := 6
  trigger_address : Nat := 0
  length_register_enabled : Bool := false
  length_function_code : Nat := 3
  length_address : Nat := 0
  length_quantity : Nat := 2
  read_only : Bool := false
  description : String := ""
deriving DecidableEq, Repr

/-- `SlaveConnectionType` enum of the source. -/
inductive SlaveConnectionType where
  | RTU
  | TCP
deriving DecidableEq, Repr

/-- `SlaveConfig` dataclass of the source (transport line parameters that no
claim touches are kept for completeness). -/
structure SlaveConfig where
  slave_id : String
  name : String
  connection_type : SlaveConnectionType
  device_address : Nat := 1
  port : Option String := none
  baudrate : Nat := 9600
  host : String := "0.0.0.0"
  tcp_port : Nat := 502
  coil_count : Nat := 1000
  discrete_input_count : Nat := 1000
  holding_register_count : Nat := 1000
  input_register_count : Nat := 1000
  register_points : List RegisterPoint := []
  file_records : List FileRecordConfig := []
  enable_file_operations : Bool := false
deriving DecidableEq, Repr

/-- Payload carried by an `OperationResult.data` (Python `Any`). -/
inductive ResData where
  | none
  | int (n : Int)
  | bytes (bs : List Nat)
  | msg (s : String)
deriving DecidableEq, Repr

/-- One constructor per distinct error message of the source. -/
inductive SlaveError where
  | alreadyRunning
  | rtuPortMissing
  | registerReadFailed
  | registerWriteFailed
  | readOnlyAddress (address : Nat)
  | valueOutOfRange (v : Int)
  | fileOperationsDisabled
  | fileNotConfigured (fn : Nat)
  | fileDataMissing (fn : Nat)
  | unsupportedLengthFunctionCode (fc : Nat)
  | lengthRegisterReadFailed (fn : Nat)
  | fileReadOnly (fn : Nat)
  | fileSizeExceeded (maxSize : Nat)
deriving DecidableEq, Repr

/-- `OperationResult` dataclass of the source. -/
structure OperationResult where
  success : Bool
  data : ResData := .none
  error : Option SlaveError := none
deriving DecidableEq, Repr

/-- The four banks of the datastore, each a finite list of register values. -/
def Datastore : Type := RegisterType → List Int

/-- Configured size of one bank. -/
def bankSize (cfg : SlaveConfig) (rt : RegisterType) : Nat :=
  match rt with
  | .coil => cfg.coil_count
  | .discrete_input => cfg.discrete_input_count
  | .holding_register => cfg.holding_register_count
  | .input_register => cfg.input_register_count

/-- Fresh zero-filled banks (`ModbusSequentialDataBlock(0, [0]*count)`). -/
def freshBanks (cfg : SlaveConfig) : Datastore :=
  fun rt => List.replicate (bankSize cfg rt) 0

/-- Modelled from the spec: datastore `get(bank, address, count)` returns the
`count` values starting at `address`, failing when the range exceeds the
bank's configured size (the actual storage lives in the external `pymodbus`
library). -/
def dsGetRange (ds : Datastore) (rt : RegisterType) (address count : Nat) :
    Option (List Int) :=
  if address + count ≤ (ds rt).length then
    some (((ds rt).drop address).take count)
  else
    none

/-- Modelled from the spec: datastore `set(bank, address, [value])` with the
same bound check as `get`; `none` models the exception a caller catches. -/
def dsSet (ds : Datastore) (rt : RegisterType) (address : Nat) (v : Int) :
    Option Datastore :=
  if address < (ds rt).length then
    some (fun rt2 => if rt2 = rt then (ds rt).set address v else ds rt2)
  else
    none

/-- In-memory file blobs: `self.file_data : {file_number: bytes}`. -/
def FileData : Type := Nat → Option (List Nat)

/-- Dictionary update `self.file_data[k] = v`. -/
def setFD (fd : FileData) (k : Nat) (v : List Nat) : FileData :=
  fun n => if n = k then some v else fd n

/-- The filesystem visible to the instance, path → contents. -/
def DiskMap : Type := String → Option (List Nat)

/-- Writing a whole file to disk (`open(path,'wb').write(...)`). -/
def setDisk (dm : DiskMap) (path : String) (v : List Nat) : DiskMap :=
  fun p => if p = path then some v else dm p

/-- Runtime state of one `ModbusSlave` (threads/event loop reduced to the
`running` flag, callback attachment to a boolean). -/
structure ModbusSlave where
  config : SlaveConfig
  running : Bool
  error_message : Option SlaveError
  datastore : Datastore
  file_data : FileData
  disk : DiskMap
  has_value_callback : Bool

/-- A point seeds successfully from a datastore: its value coerces and its
address is in range (one iteration of the `_init_datastore` loop). -/
def seedPoint (ds : Datastore) (p : RegisterPoint) : Option Datastore :=
  match pyIntCoerce p.value with
  | some v => dsSet ds p.register_type p.address v
  | none => none

/-- One iteration of the seeding loop: on failure the point is skipped
(the caught exception), on success the counter increments. -/
def seedStep (acc : Datastore × Nat) (p : RegisterPoint) : Datastore × Nat :=
  match seedPoint acc.1 p with
  | some ds2 => (ds2, acc.2 + 1)
  | none => acc

/-- `ModbusSlave._init_datastore`: fresh banks, then every configured point is
seeded in order, counting the successes. -/
def initDatastore (cfg : SlaveConfig) : Datastore × Nat :=
  cfg.register_points.foldl seedStep (freshBanks cfg, 0)

/-- One iteration of `_init_file_records`: an existing file is read up to
`max_size` bytes, a missing file yields an empty blob. -/
def loadFile (disk : DiskMap) (fd : FileData) (fc : FileRecordConfig) :
    FileData :=
  match disk fc.file_path with
  | some bs => setFD fd fc.file_number (bs.take fc.max_size)
  | none => setFD fd fc.file_number []

/-- `ModbusSlave._init_file_records`. -/
def initFileRecords (cfg : SlaveConfig) (disk : DiskMap) : FileData :=
  if cfg.enable_file_operations then
    cfg.file_records.foldl (loadFile disk) (fun _ => none)
  else
    fun _ => none

/-- `ModbusSlave.__init__`: loads file blobs, builds and seeds the datastore;
also returns the reported count of successfully seeded points. -/
def mkSlave (cfg : SlaveConfig) (disk : DiskMap) : ModbusSlave × Nat :=
  let fd := initFileRecords cfg disk
  let dsn := initDatastore cfg
  ({ config := cfg
     running := false
     error_message := none
     datastore := dsn.1
     file_data := fd
     disk := disk
     has_value_callback := false }, dsn.2)

/-- `ModbusSlave.start`: already-running fails; RTU without a port fails;
otherwise the worker is launched and `running` is set (the asynchronous
transport bind is outside this model). -/
def ModbusSlave.start (st : ModbusSlave) : OperationResult × ModbusSlave :=
  if st.running then
    ({ success := false, error := some .alreadyRunning }, st)
  else
    match st.config.connection_type with
    | .RTU =>
      match st.config.port with
      | none => ({ success := false, error := some .rtuPortMissing }, st)
      | some p =>
        if p = "" then
          ({ success := false, error := some .rtuPortMissing }, st)
        else
          ({ success := true, data := .msg "started" },
           { st with running := true, error_message := none })
    | .TCP =>
      ({ success := true, data := .msg "started" },
       { st with running := true, error_message := none })

/-- `ModbusSlave.stop`: not-running is a no-op success; otherwise the
transport is shut down with bounded grace (outside this model) and the
flags reset. -/
def ModbusSlave.stop (st : ModbusSlave) : OperationResult × ModbusSlave :=
  if st.running then
    ({ success := true, data := .msg "stopped" },
     { st with running := false, error_message := none })
  else
    ({ success := true, data := .msg "not running" }, st)

/-- `ModbusSlave.read_register`: one value at the protocol address; a range
failure inside the datastore is caught and reported. -/
def ModbusSlave.read_register (st : ModbusSlave) (rt : RegisterType)
    (address : Nat) : OperationResult :=
  match dsGetRange st.datastore rt address 1 with
  | some vals => { success := true, data := .int (vals.headD 0) }
  | none => { success := false, error := some .registerReadFailed }

/-- `ModbusSlave._find_point`: first configured point at (bank, address). -/
def ModbusSlave.find_point (cfg : SlaveConfig) (rt : RegisterType)
    (address : Nat) : Option RegisterPoint :=
  cfg.register_points.find?
    (fun p => decide (p.register_type = rt ∧ p.address = address))

/-- `ModbusSlave.write_register`: point guard (read-only, then bound/type
check), then the datastore write, then the value-changed callback.  The third
component lists the callback invocations the call performed. -/
def ModbusSlave.write_register (st : ModbusSlave) (rt : RegisterType)
    (address : Nat) (v : Int) :
    OperationResult × ModbusSlave × List (RegisterType × Nat × Int) :=
  match ModbusSlave.find_point st.config rt address with
  | some p =>
    if p.read_only then
      ({ success := false, error := some (.readOnlyAddress address) }, st, [])
    else if ¬ p.validate_value v then
      ({ success := false, error := some (.valueOutOfRange v) }, st, [])
    else
      match dsSet st.datastore rt address v with
      | some ds2 =>
        ({ success := true, data := .msg "written" },
         { st with datastore := ds2 },
         if st.has_value_callback then [(rt, address, v)] else [])
      | none =>
        ({ success := false, error := some .registerWriteFailed }, st, [])
  | none =>
    match dsSet st.datastore rt address v with
    | some ds2 =>
      ({ success := true, data := .msg "written" },
       { st with datastore := ds2 },
       if st.has_value_callback then [(rt, address, v)] else [])
    | none =>
      ({ success := false, error := some .registerWriteFailed }, st, [])

/-- First configured `FileRecordConfig` with the given file number. -/
def find_file_config (cfg : SlaveConfig) (fn : Nat) :
    Option FileRecordConfig :=
  cfg.file_records.find? (fun fc => decide (fc.file_number = fn))

/-- Python `<<` on an integer: multiplication by a power of two. -/
def pyShl (v : Int) (k : Nat) : Int := v * 2 ^ k

/-- Python `|` on integers (two's complement bitwise or). -/
def pyOr (a b : Int) : Int := Int.lor a b

/-- The generic N-word big-endian concatenation of the length-register
decode: `sum(v << (16 * (q - 1 - i)) for i, v in enumerate(values))`. -/
def genericWordSum (q : Nat) (vals : List Int) : Int :=
  (vals.enum.map (fun p => pyShl p.2 (16 * (q - 1 - p.1)))).sum

/-- The length-register decode of `read_file_record`: one word directly, two
words as `(hi << 16) | lo`, otherwise the generic sum. -/
def decodeLengthWords (q : Nat) (vals : List Int) : Int :=
  if q = 1 then vals.getD 0 0
  else if q = 2 then pyOr (pyShl (vals.getD 0 0) 16) (vals.getD 1 0)
  else genericWordSum q vals

/-- The trigger step of `read_file_record`: for a write-register trigger the
file number is written at the trigger address; a failing write is caught and
ignored. -/
def applyTrigger (st : ModbusSlave) (fc : FileRecordConfig) (fn : Nat) :
    ModbusSlave :=
  if fc.trigger_enabled then
    if fc.trigger_function_code = 6 then
      match dsSet st.datastore .holding_register fc.trigger_address
          ((fn : Nat) : Int) with
      | some ds2 => { st with datastore := ds2 }
      | none => st
    else st
  else st

/-- The length-resolution step of `read_file_record`: caller-supplied word
length first, then the fixed configured length, then the length register,
then the remaining bytes of the buffer. -/
def resolveByteLength (ds : Datastore) (fc : FileRecordConfig)
    (contentLen : Nat) (record_number : Nat) (record_length : Option Nat) :
    Except SlaveError Int :=
  match record_length with
  | some w => .ok ((w * 2 : Nat) : Int)
  | none =>
    match fc.file_length with
    | some L => .ok ((L : Nat) : Int)
    | none =>
      if fc.length_register_enabled then
        if fc.length_function_code = 3 then
          match dsGetRange ds .holding_register fc.length_address
              fc.length_quantity with
          | some vals => .ok (decodeLengthWords fc.length_quantity vals)
          | none => .error (.lengthRegisterReadFailed fc.file_number)
        else .error (.unsupportedLengthFunctionCode fc.length_function_code)
      else
        .ok ((contentLen : Nat) - ((record_number * 2 : Nat) : Int))

/-- Python `bs[start:stop]` for a non-negative `start` and an integer `stop`
(a negative `stop` counts from the end). -/
def pySliceTo (bs : List Nat) (start : Nat) (stop : Int) : List Nat :=
  let stopN := if stop < 0 then (((bs.length : Nat) : Int) + stop).toNat
               else min stop.toNat bs.length
  (bs.take stopN).drop start

/-- `ModbusSlave.read_file_record` (function code 20): config and data
presence checks, trigger, length resolution, then the clipped slice
`content[record_number*2 : min(record_number*2 + byte_length, len)]`. -/
def ModbusSlave.read_file_record (st : ModbusSlave) (fn : Nat)
    (record_number : Nat) (record_length : Option Nat) :
    OperationResult × ModbusSlave :=
  if ¬ st.config.enable_file_operations then
    ({ success := false, error := some .fileOperationsDisabled }, st)
  else
    match find_file_config st.config fn with
    | none => ({ success := false, error := some (.fileNotConfigured fn) }, st)
    | some fc =>
      match st.file_data fn with
      | none => ({ success := false, error := some (.fileDataMissing fn) }, st)
      | some content =>
        let st1 := applyTrigger st fc fn
        match resolveByteLength st1.datastore fc content.length record_number
            record_length with
        | .error e => ({ success := false, error := some e }, st1)
        | .ok bl =>
          let start := record_number * 2
          let stop := min ((start : Int) + bl) (content.length : Int)
          ({ success := true, data := .bytes (pySliceTo content start stop) },
           st1)

/-- `ModbusSlave.write_file_record` (function code 21): config, read-only and
size checks; the buffer is zero-extended to the required size, the target
range overwritten, and the whole buffer persisted to disk when a path is
configured. -/
def ModbusSlave.write_file_record (st : ModbusSlave) (fn : Nat)
    (record_number : Nat) (data : List Nat) :
    OperationResult × ModbusSlave :=
  if ¬ st.config.enable_file_operations then
    ({ success := false, error := some .fileOperationsDisabled }, st)
  else
    match find_file_config st.config fn with
    | none => ({ success := false, error := some (.fileNotConfigured fn) }, st)
    | some fc =>
      if fc.read_only then
        ({ success := false, error := some (.fileReadOnly fn) }, st)
      else
        let fd0 := if (st.file_data fn).isNone then setFD st.file_data fn []
                   else st.file_data
        let offset := record_number * 2
        let required := offset + data.length
        if required > fc.max_size then
          ({ success := false, error := some (.fileSizeExceeded fc.max_size) },
           { st with file_data := fd0 })
        else
          let current := (fd0 fn).getD []
          let extended :=
            if current.length < required then
              current ++ List.replicate (required - current.length) 0
            else current
          let newContent :=
            extended.take offset ++ data ++ extended.drop (offset + data.length)
          let fd1 := setFD fd0 fn newContent
          let disk1 := if fc.file_path ≠ "" then
                         setDisk st.disk fc.file_path newContent
                       else st.disk
          ({ success := true, data := .msg "written" },
           { st with file_data := fd1, disk := disk1 })

/-! ### Sample configurations and instances used by witnesses -/

/-- An empty filesystem for the sample instances. -/
def emptyDisk : DiskMap := fun _ => none

/-- A minimal TCP configuration. -/
def sampleConfig : SlaveConfig :=
  { slave_id := "s1", name := "s1", connection_type := .TCP }

/-- A freshly built (stopped) instance. -/
def sampleStopped : ModbusSlave := (mkSlave sampleConfig emptyDisk).1

/-- The same instance with the running flag set. -/
def sampleRunning : ModbusSlave := { sampleStopped with running := true }

/-- A read-only holding-register point at address 5. -/
def samplePointRO : RegisterPoint :=
  { address := 5, name := "ro", register_type := .holding_register,
    value := .intv 42, read_only := true }

/-- A bounded holding-register point at address 6 with range 0..100. -/
def samplePointBounded : RegisterPoint :=
  { address := 6, name := "b", register_type := .holding_register,
    value := .intv 1, min_value := some 0, max_value := some 100 }

/-- A point whose value does not coerce to an integer. -/
def samplePointBad : RegisterPoint :=
  { address := 7, name := "bad", register_type := .holding_register,
    value := .nonnumeric }

/-- Configuration carrying the three sample points. -/
def sampleConfigPts : SlaveConfig :=
  { slave_id := "s2", name := "s2", connection_type := .TCP,
    register_points := [samplePointRO, samplePointBounded, samplePointBad] }

/-- Instance built from `sampleConfigPts`. -/
def sampleSlavePts : ModbusSlave := (mkSlave sampleConfigPts emptyDisk).1

/-- Instance with the callback attached, for the C4 witness. -/
def sampleSlaveCb : ModbusSlave :=
  { sampleSlavePts with has_value_callback := true }

/-- A point seeds successfully exactly when its value coerces and its
address is inside its bank. -/
def seedOK (cfg : SlaveConfig) (p : RegisterPoint) : Bool :=
  (pyIntCoerce p.value).isSome &&
    decide (p.address < bankSize cfg p.register_type)

/-- Configured points have pairwise distinct (bank, address) keys — the
uniqueness precondition the spec places on the caller. -/
def PointKeysDistinct (cfg : SlaveConfig) : Prop :=
  cfg.register_points.Pairwise
    (fun p q => ¬(p.register_type = q.register_type ∧ p.address = q.address))

/-- File config with max_size 4 (the size-limit rejection example). -/
def sampleFileSmall : FileRecordConfig :=
  { file_number := 1, file_path := "f1.bin", max_size := 4 }

/-- Writable file with room, for the round-trip example. -/
def sampleFileBig : FileRecordConfig :=
  { file_number := 2, file_path := "f2.bin", max_size := 64 }

/-- File with a fixed length of 10 bytes and an enabled one-word length
register at holding-register address 0. -/
def sampleFileFixed : FileRecordConfig :=
  { file_number := 3, file_path := "f3.bin", file_length := some 10,
    length_register_enabled := true, length_address := 0,
    length_quantity := 1 }

/-- Configuration with file operations enabled (small banks keep the
witnesses cheap to evaluate). -/
def sampleConfigFiles : SlaveConfig :=
  { slave_id := "s4", name := "s4", connection_type := .TCP,
    coil_count := 8, discrete_input_count := 8,
    holding_register_count := 8, input_register_count := 8,
    file_records := [sampleFileSmall, sampleFileBig, sampleFileFixed],
    enable_file_operations := true }

/-- Filesystem carrying the three sample files. -/
def sampleDiskFiles : DiskMap :=
  fun p =>
    if p = "f1.bin" then some [1, 2, 3, 4]
    else if p = "f2.bin" then some [5, 6, 7, 8]
    else if p = "f3.bin" then
      some [10, 11, 12, 13, 14, 15, 16, 17, 18, 19, 20, 21]
    else none

/-- Instance with the sample file records loaded. -/
def sampleSlaveFiles : ModbusSlave :=
  (mkSlave sampleConfigFiles sampleDiskFiles).1

/-- The same instance with the length register (holding register 0)
reporting 4. -/
def sampleSlaveFilesReg : ModbusSlave :=
  { sampleSlaveFiles with
    datastore := fun rt =>
      if rt = .holding_register then [4, 0, 0, 0, 0, 0, 0, 0]
      else sampleSlaveFiles.datastore rt }

/-- The buffer produced by a successful `write_file_record` on an existing
buffer `content`: zero-extended to the required size, then the target range
overwritten with `b`. -/
def newFileContent (content : List Nat) (rn : Nat) (b : List Nat) :
    List Nat :=
  let offset := rn * 2
  let required := offset + b.length
  let extended :=
    if content.length < required then
      content ++ List.replicate (required - content.length) 0
    else content
  extended.take offset ++ b ++ extended.drop (offset + b.length)

/-- Configured file records have pairwise distinct file numbers (the
file_number is the registry key within an instance). -/
def FileNumbersDistinct (cfg : SlaveConfig) : Prop :=
  cfg.file_records.Pairwise (fun a b => a.file_number ≠ b.file_number)

/-- Every configured file's in-memory buffer is no longer than its
configured `max_size`. -/
def FileSizeInvariant (st : ModbusSlave) : Prop :=
  ∀ fn fc, find_file_config st.config fn = some fc →
    ((st.file_data fn).getD []).length ≤ fc.max_size

/-- File with no fixed length and an enabled one-word length register at
holding-register address 0 (third priority level). -/
def sampleFileRegOnly : FileRecordConfig :=
  { file_number := 4, file_path := "f4.bin",
    length_register_enabled := true, length_address := 0,
    length_quantity := 1 }

/-! ### Datastore helper lemmas -/

theorem dsSet_eq_some (ds : Datastore) (rt : RegisterType) (a : Nat) (v : Int)
    (h : a < (ds rt).length) :
    dsSet ds rt a v =
      some (fun rt2 => if rt2 = rt then (ds rt).set a v else ds rt2) := by
  simp [dsSet, h]

theorem dsSet_lengths {ds ds2 : Datastore} {rt : RegisterType} {a : Nat}
    {v : Int} (h : dsSet ds rt a v = some ds2) (rt2 : RegisterType) :
    (ds2 rt2).length = (ds rt2).length := by
  unfold dsSet at h
  split at h
  · cases h
    by_cases h2 : rt2 = rt
    · subst h2; simp
    · simp [h2]
  · cases h

theorem dsSet_get_self {ds ds2 : Datastore} {rt : RegisterType} {a : Nat}
    {v : Int} (h : dsSet ds rt a v = some ds2) : (ds2 rt)[a]? = some v := by
  unfold dsSet at h
  split at h
  · cases h
    rename_i hlt
    simp [List.getElem?_set_self hlt]
  · cases h

theorem dsSet_get_other {ds ds2 : Datastore} {rt rt2 : RegisterType}
    {a a2 : Nat} {v : Int} (h : dsSet ds rt a v = some ds2)
    (hne : rt2 ≠ rt ∨ a2 ≠ a) : (ds2 rt2)[a2]? = (ds rt2)[a2]? := by
  unfold dsSet at h
  split at h
  · cases h
    by_cases h2 : rt2 = rt
    · subst h2
      cases hne with
      | inl hr => exact absurd rfl hr
      | inr ha => simp [List.getElem?_set_ne (Ne.symm ha)]
    · simp [h2]
  · cases h

theorem read_register_of_getElem (st : ModbusSlave) (rt : RegisterType)
    (a : Nat) (w : Int) (h : (st.datastore rt)[a]? = some w) :
    st.read_register rt a =
      { success := true, data := .int w, error := none } := by
  have hlt : a < (st.datastore rt).length := by
    rcases List.getElem?_eq_some.mp h with ⟨h1, _⟩
    exact h1
  have hv : (st.datastore rt)[a] = w := by
    rcases List.getElem?_eq_some.mp h with ⟨_, h2⟩
    exact h2
  unfold ModbusSlave.read_register dsGetRange
  rw [if_pos (by omega)]
  rw [List.drop_eq_getElem_cons hlt]
  simp [hv]

/-! ### C1: start on a running instance / stop on a stopped instance -/

/-- C1 counterexample: on a RUNNING instance, `start()` does NOT return a
no-op success — it returns a failure (`OperationResult(False,
error="服务器已在运行")`, slave_server.py line 234), refuting the claim that
both calls are no-op successes. -/
theorem c1_start_running_counterexample :
    sampleRunning.running = true ∧
    (sampleRunning.start).1.success = false := ⟨rfl, rfl⟩

/-- C1 (amended): `start()` on a RUNNING instance returns a no-op *failure*
(with the already-running error) and leaves the state unchanged, while
`stop()` on a non-RUNNING instance returns a no-op success and leaves the
state unchanged. -/
theorem start_stop_noop (st : ModbusSlave) :
    (st.running = true →
      (st.start).1 = { success := false, error := some .alreadyRunning } ∧
      (st.start).2 = st) ∧
    (st.running = false →
      (st.stop).1.success = true ∧ (st.stop).2 = st) := by
  constructor
  · intro h
    simp [ModbusSlave.start, h]
  · intro h
    simp [ModbusSlave.stop, h]

/-- Witness for `start_stop_noop` at the sample instances. -/
theorem start_stop_noop_witness :
    ((sampleRunning.start).1 =
      { success := false, error := some .alreadyRunning } ∧
     (sampleRunning.start).2 = sampleRunning) ∧
    ((sampleStopped.stop).1.success = true ∧
     (sampleStopped.stop).2 = sampleStopped) :=
  ⟨(start_stop_noop sampleRunning).1 rfl, (start_stop_noop sampleStopped).2 rfl⟩

/-! ### C3: read-only and out-of-range writes fail without touching state -/

/-- C3: at any (bank, address) with a configured point, `write_register`
fails with the read-only error when the point is read-only, and fails with
the out-of-range error when the value fails the point's bound/type check;
in both cases the instance state (hence the stored value) is unchanged and
no callback fires. -/
theorem write_register_guard (st : ModbusSlave) (rt : RegisterType)
    (address : Nat) (v : Int) (p : RegisterPoint)
    (hfind : ModbusSlave.find_point st.config rt address = some p) :
    (p.read_only = true →
      st.write_register rt address v =
        ({ success := false, error := some (.readOnlyAddress address) },
         st, [])) ∧
    (p.read_only = false → p.validate_value v = false →
      st.write_register rt address v =
        ({ success := false, error := some (.valueOutOfRange v) },
         st, [])) := by
  constructor
  · intro h
    simp [ModbusSlave.write_register, hfind, h]
  · intro h hv
    simp [ModbusSlave.write_register, hfind, h, hv]

/-- Witness for `write_register_guard`: the read-only point rejects a write
of 7, the bounded point rejects 150. -/
theorem write_register_guard_witness :
    (sampleSlavePts.write_register .holding_register 5 7 =
      ({ success := false, error := some (.readOnlyAddress 5) },
       sampleSlavePts, [])) ∧
    (sampleSlavePts.write_register .holding_register 6 150 =
      ({ success := false, error := some (.valueOutOfRange 150) },
       sampleSlavePts, [])) :=
  ⟨(write_register_guard sampleSlavePts .holding_register 5 7 samplePointRO
      rfl).1 rfl,
   (write_register_guard sampleSlavePts .holding_register 6 150
      samplePointBounded rfl).2 rfl rfl⟩

/-! ### C4: successful writes are visible on the next read and fire the
callback exactly once -/

/-- C4: for an in-range address where either no point is configured (writes
are unrestricted) or the configured point passes its checks, and with the
value-changed callback attached, `write_register` succeeds, the next
`read_register` at the same (bank, address) returns the written value, and
the callback fires exactly once with (bank, address, value). -/
theorem write_register_success (st : ModbusSlave) (rt : RegisterType)
    (address : Nat) (v : Int)
    (hlt : address < (st.datastore rt).length)
    (hpt : ModbusSlave.find_point st.config rt address = none ∨
      ∃ p, ModbusSlave.find_point st.config rt address = some p ∧
        p.read_only = false ∧ p.validate_value v = true)
    (hcb : st.has_value_callback = true) :
    (st.write_register rt address v).1.success = true ∧
    ModbusSlave.read_register (st.write_register rt address v).2.1 rt
      address = { success := true, data := .int v, error := none } ∧
    (st.write_register rt address v).2.2 = [(rt, address, v)] := by
  have hset := dsSet_eq_some st.datastore rt address v hlt
  have hget := dsSet_get_self hset
  have hwr : st.write_register rt address v =
      ({ success := true, data := .msg "written" },
       { st with datastore :=
          fun rt2 => if rt2 = rt then (st.datastore rt).set address v
                     else st.datastore rt2 },
       [(rt, address, v)]) := by
    cases hpt with
    | inl hnone =>
      simp [ModbusSlave.write_register, hnone, hset, hcb]
    | inr hp =>
      rcases hp with ⟨p, hfp, hro, hval⟩
      simp [ModbusSlave.write_register, hfp, hro, hval, hset, hcb]
  refine ⟨by rw [hwr], ?_, by rw [hwr]⟩
  rw [hwr]
  exact read_register_of_getElem _ rt address v hget

/-! ### Seeding-fold lemmas -/

theorem seedStep_length (acc : Datastore × Nat) (p : RegisterPoint)
    (rt : RegisterType) :
    ((seedStep acc p).1 rt).length = (acc.1 rt).length := by
  unfold seedStep seedPoint
  cases pyIntCoerce p.value with
  | none => rfl
  | some v =>
    simp only []
    cases h : dsSet acc.1 p.register_type p.address v with
    | none => rfl
    | some ds2 => exact dsSet_lengths h rt

theorem foldl_seed_length (l : List RegisterPoint) (acc : Datastore × Nat)
    (rt : RegisterType) :
    ((l.foldl seedStep acc).1 rt).length = (acc.1 rt).length := by
  induction l generalizing acc with
  | nil => rfl
  | cons q rest ih =>
    rw [List.foldl_cons, ih]
    exact seedStep_length acc q rt

theorem mkSlave_bank_length (cfg : SlaveConfig) (disk : DiskMap)
    (rt : RegisterType) :
    ((mkSlave cfg disk).1.datastore rt).length = bankSize cfg rt := by
  show ((initDatastore cfg).1 rt).length = bankSize cfg rt
  unfold initDatastore
  rw [foldl_seed_length]
  simp [freshBanks]

/-- Witness for `write_register_success`: a write of 9 at the unconfigured
holding-register address 0. -/
theorem write_register_success_witness :
    (sampleSlaveCb.write_register .holding_register 0 9).1.success = true ∧
    ModbusSlave.read_register
      (sampleSlaveCb.write_register .holding_register 0 9).2.1
      .holding_register 0 =
      { success := true, data := .int 9, error := none } ∧
    (sampleSlaveCb.write_register .holding_register 0 9).2.2 =
      [(.holding_register, 0, 9)] :=
  write_register_success sampleSlaveCb .holding_register 0 9
    (by
      show 0 < ((mkSlave sampleConfigPts emptyDisk).1.datastore
        RegisterType.holding_register).length
      rw [mkSlave_bank_length]
      decide)
    (Or.inl rfl) rfl

/-! ### C2: seeded points read back; seeding count -/

theorem foldl_seed_get_not_mem (l : List RegisterPoint)
    (acc : Datastore × Nat) (rt : RegisterType) (a : Nat)
    (h : ∀ q ∈ l, ¬(q.register_type = rt ∧ q.address = a)) :
    ((l.foldl seedStep acc).1 rt)[a]? = (acc.1 rt)[a]? := by
  induction l generalizing acc with
  | nil => rfl
  | cons q rest ih =>
    rw [List.foldl_cons]
    rw [ih _ (fun r hr => h r (List.mem_cons_of_mem q hr))]
    have hq := h q (List.mem_cons_self q rest)
    unfold seedStep seedPoint
    cases pyIntCoerce q.value with
    | none => rfl
    | some v =>
      simp only []
      cases hset : dsSet acc.1 q.register_type q.address v with
      | none => rfl
      | some ds2 =>
        refine dsSet_get_other hset ?_
        by_cases h1 : q.register_type = rt
        · right
          intro h2
          exact hq ⟨h1, h2.symm⟩
        · left
          exact fun h2 => h1 h2.symm

theorem foldl_seed_get_mem (l : List RegisterPoint) (acc : Datastore × Nat)
    (p : RegisterPoint) (v : Int)
    (hdist : l.Pairwise
      (fun p q => ¬(p.register_type = q.register_type ∧
        p.address = q.address)))
    (hmem : p ∈ l) (hco : pyIntCoerce p.value = some v)
    (hlt : p.address < (acc.1 p.register_type).length) :
    ((l.foldl seedStep acc).1 p.register_type)[p.address]? = some v := by
  induction l generalizing acc with
  | nil => cases hmem
  | cons q rest ih =>
    rw [List.pairwise_cons] at hdist
    rcases List.mem_cons.mp hmem with heq | hmemr
    · subst heq
      rw [List.foldl_cons]
      have hstep : seedStep acc p =
          (fun rt2 => if rt2 = p.register_type then
            (acc.1 p.register_type).set p.address v else acc.1 rt2,
           acc.2 + 1) := by
        unfold seedStep seedPoint
        rw [hco]
        simp only []
        rw [dsSet_eq_some _ _ _ _ hlt]
      rw [hstep]
      rw [foldl_seed_get_not_mem _ _ _ _
        (fun r hr hk => hdist.1 r hr ⟨hk.1.symm, hk.2.symm⟩)]
      have hset := dsSet_eq_some acc.1 p.register_type p.address v hlt
      exact dsSet_get_self hset
    · rw [List.foldl_cons]
      refine ih (seedStep acc q) hdist.2 hmemr ?_
      rw [seedStep_length]
      exact hlt

theorem foldl_seed_count (cfg : SlaveConfig) (l : List RegisterPoint)
    (acc : Datastore × Nat)
    (h : ∀ rt, (acc.1 rt).length = bankSize cfg rt) :
    (l.foldl seedStep acc).2 = acc.2 + (l.filter (seedOK cfg)).length := by
  induction l generalizing acc with
  | nil => rfl
  | cons q rest ih =>
    rw [List.foldl_cons, List.filter_cons]
    have hacc2 : ∀ rt, ((seedStep acc q).1 rt).length = bankSize cfg rt :=
      fun rt => by rw [seedStep_length]; exact h rt
    by_cases hq : seedOK cfg q = true
    · have hsome : ∃ w, pyIntCoerce q.value = some w := by
        rcases Bool.and_eq_true_iff.mp hq with ⟨h1, _⟩
        exact Option.isSome_iff_exists.mp h1
      rcases hsome with ⟨w, hw⟩
      have hlt : q.address < (acc.1 q.register_type).length := by
        rcases Bool.and_eq_true_iff.mp hq with ⟨_, h2⟩
        rw [h q.register_type]
        exact of_decide_eq_true h2
      have hstep : (seedStep acc q).2 = acc.2 + 1 := by
        unfold seedStep seedPoint
        rw [hw]
        simp only []
        rw [dsSet_eq_some _ _ _ _ hlt]
      rw [ih _ hacc2, hstep, hq]
      simp only [if_true, List.length_cons]
      omega
    · have hstep : seedStep acc q = acc := by
        unfold seedStep seedPoint
        cases hw : pyIntCoerce q.value with
        | none => rfl
        | some w =>
          simp only []
          have hlt : ¬ q.address < (acc.1 q.register_type).length := by
            rw [h q.register_type]
            intro hcontra
            exact hq (by
              simp [seedOK, hw, Option.isSome]
              exact hcontra)
          simp [dsSet, hlt]
      rw [ih _ hacc2, hstep]
      simp [hq]

/-- C2: for a configuration with distinct point keys, every point whose
value coerces and whose address fits its bank reads back its seed value
immediately after construction, and the reported count of successfully
seeded points is exactly the number of points passing those two checks
(points failing them are skipped, construction still completing). -/
theorem seeded_points_readback (cfg : SlaveConfig) (disk : DiskMap)
    (p : RegisterPoint) (v : Int)
    (hdist : PointKeysDistinct cfg)
    (hmem : p ∈ cfg.register_points)
    (hco : pyIntCoerce p.value = some v)
    (hlt : p.address < bankSize cfg p.register_type) :
    ModbusSlave.read_register (mkSlave cfg disk).1 p.register_type
      p.address = { success := true, data := .int v, error := none } ∧
    (mkSlave cfg disk).2 =
      (cfg.register_points.filter (seedOK cfg)).length := by
  constructor
  · refine read_register_of_getElem _ _ _ v ?_
    show ((initDatastore cfg).1 p.register_type)[p.address]? = some v
    unfold initDatastore
    refine foldl_seed_get_mem _ _ p v hdist hmem hco ?_
    simp [freshBanks, hlt]
  · show (initDatastore cfg).2 = _
    unfold initDatastore
    rw [foldl_seed_count cfg _ _ (fun rt => by simp [freshBanks])]
    omega

/-- Witness for `seeded_points_readback`: in `sampleConfigPts` the read-only
point at holding-register address 5 reads back 42, and exactly 2 of the 3
configured points seed (the string-valued one is skipped). -/
theorem seeded_points_readback_witness :
    ModbusSlave.read_register (mkSlave sampleConfigPts emptyDisk).1
      .holding_register 5 =
      { success := true, data := .int 42, error := none } ∧
    (mkSlave sampleConfigPts emptyDisk).2 = 2 := by
  have h := seeded_points_readback sampleConfigPts emptyDisk samplePointRO 42
    (by
      unfold PointKeysDistinct sampleConfigPts
      simp [List.pairwise_cons, samplePointRO, samplePointBounded,
        samplePointBad])
    (List.mem_cons_self _ _) rfl (by decide)
  refine ⟨h.1, ?_⟩
  rw [h.2]
  decide

/-! ### C7: over-size file writes are rejected without changing state -/

/-- C7: a `write_file_record` whose required size `record_number*2 +
len(data)` exceeds the file's configured `max_size` fails with the size
error; the on-disk file is untouched and every in-memory buffer keeps its
contents. -/
theorem write_file_record_size_guard (st : ModbusSlave) (fn : Nat)
    (fc : FileRecordConfig) (rn : Nat) (data : List Nat)
    (hen : st.config.enable_file_operations = true)
    (hfc : find_file_config st.config fn = some fc)
    (hro : fc.read_only = false)
    (hsz : rn * 2 + data.length > fc.max_size) :
    (st.write_file_record fn rn data).1 =
      { success := false, error := some (.fileSizeExceeded fc.max_size) } ∧
    (st.write_file_record fn rn data).2.disk = st.disk ∧
    (∀ n, ((st.write_file_record fn rn data).2.file_data n).getD [] =
      (st.file_data n).getD []) := by
  have hred : st.write_file_record fn rn data =
      ({ success := false, error := some (.fileSizeExceeded fc.max_size) },
       { st with file_data :=
          if (st.file_data fn).isNone then setFD st.file_data fn []
          else st.file_data }) := by
    unfold ModbusSlave.write_file_record
    simp [hen, hfc, hro, hsz]
  rw [hred]
  refine ⟨rfl, rfl, fun n => ?_⟩
  by_cases hfd : (st.file_data fn).isNone
  · rw [if_pos hfd]
    by_cases hn : n = fn
    · subst hn
      rw [Option.isNone_iff_eq_none] at hfd
      simp [setFD, hfd]
    · simp [setFD, hn]
  · rw [if_neg hfd]

/-- Witness for `write_file_record_size_guard`: writing 6 bytes at offset 0
into the max-size-4 file 1. -/
theorem write_file_record_size_guard_witness :
    (sampleSlaveFiles.write_file_record 1 0 [9, 9, 9, 9, 9, 9]).1 =
      { success := false, error := some (.fileSizeExceeded 4) } ∧
    (sampleSlaveFiles.write_file_record 1 0 [9, 9, 9, 9, 9, 9]).2.disk =
      sampleSlaveFiles.disk ∧
    (∀ n,
      ((sampleSlaveFiles.write_file_record 1 0 [9, 9, 9, 9, 9, 9]).2.file_data
        n).getD [] = (sampleSlaveFiles.file_data n).getD []) :=
  write_file_record_size_guard sampleSlaveFiles 1 sampleFileSmall 0
    [9, 9, 9, 9, 9, 9] rfl rfl rfl (by decide)

/-! ### File-record read helpers -/

theorem read_ok_helper (st : ModbusSlave) (fn rn : Nat) (rl : Option Nat)
    (fc : FileRecordConfig) (content : List Nat) (bl : Int)
    (hen : st.config.enable_file_operations = true)
    (hfc : find_file_config st.config fn = some fc)
    (hfd : st.file_data fn = some content)
    (hres : resolveByteLength (applyTrigger st fc fn).datastore fc
      content.length rn rl = .ok bl) :
    st.read_file_record fn rn rl =
      ({ success := true,
         data := .bytes (pySliceTo content (rn * 2)
           (min (((rn * 2 : Nat) : Int) + bl) ((content.length : Nat) : Int)))
       },
       applyTrigger st fc fn) := by
  unfold ModbusSlave.read_file_record
  simp [hen, hfc, hfd, hres]

theorem pySliceTo_min_eq (content : List Nat) (s : Nat) (bl : Int)
    (h : 0 ≤ bl) :
    pySliceTo content s (min ((s : Int) + bl) ((content.length : Nat) : Int))
      = (content.drop s).take bl.toNat := by
  simp only [pySliceTo]
  rw [if_neg (by omega)]
  have harg : min (min ((s : Int) + bl)
      ((content.length : Nat) : Int)).toNat content.length =
      min (s + bl.toNat) content.length := by
    omega
  rw [harg]
  rcases le_total (s + bl.toNat) content.length with hle | hle
  · have harg2 : min (s + bl.toNat) content.length = s + bl.toNat := by omega
    rw [harg2, ← List.take_drop]
  · have harg2 : min (s + bl.toNat) content.length = content.length := by
      omega
    rw [harg2, List.take_length,
      List.take_of_length_le (by simp; omega)]

/-! ### C8: file reads clip silently to the end of the buffer -/

/-- C8: for a configured file with data present, whenever the byte length
resolves (to a non-negative value), `read_file_record` succeeds and returns
the buffer sliced at byte offset `record_number*2` and clipped to the
buffer's actual end — an over-length read returns just the bytes that
exist, never an error. -/
theorem read_file_record_clips (st : ModbusSlave) (fn rn : Nat)
    (rl : Option Nat) (fc : FileRecordConfig) (content : List Nat) (bl : Int)
    (hen : st.config.enable_file_operations = true)
    (hfc : find_file_config st.config fn = some fc)
    (hfd : st.file_data fn = some content)
    (hres : resolveByteLength (applyTrigger st fc fn).datastore fc
      content.length rn rl = .ok bl)
    (hbl : 0 ≤ bl) :
    (st.read_file_record fn rn rl).1 =
      { success := true,
        data := .bytes ((content.drop (rn * 2)).take bl.toNat),
        error := none } := by
  rw [read_ok_helper st fn rn rl fc content bl hen hfc hfd hres]
  rw [pySliceTo_min_eq content (rn * 2) bl hbl]

/-- Witness for `read_file_record_clips`: reading 10 words (20 bytes) from
the 4-byte file 2 returns exactly its 4 bytes. -/
theorem read_file_record_clips_witness :
    (sampleSlaveFiles.read_file_record 2 0 (some 10)).1 =
      { success := true, data := .bytes [5, 6, 7, 8], error := none } := by
  have h := read_file_record_clips sampleSlaveFiles 2 0 (some 10)
    sampleFileBig [5, 6, 7, 8] ((20 : Nat) : Int) rfl rfl rfl rfl (by decide)
  rw [h]
  rfl

/-! ### C5: length-resolution precedence -/

/-- C5: `read_file_record` resolves the byte length in strict priority
order — (a) a caller-supplied word length times two always wins; (b) with no
caller length a fixed configured `file_length` wins regardless of the
datastore (hence regardless of any length register); (c) with neither, an
enabled length register (read function code 3, register range readable) is
consulted and its decode is the length — the buffer remainder is not used;
(d) with the length register disabled the remaining bytes of the buffer from
the offset are used; and in particular a file with fixed length 10 is read
back as its first 10 bytes whatever the length register reports. -/
theorem length_resolution_precedence :
    (∀ (ds : Datastore) (fc : FileRecordConfig) (cl rn w : Nat),
      resolveByteLength ds fc cl rn (some w) = .ok ((w * 2 : Nat) : Int)) ∧
    (∀ (ds : Datastore) (fc : FileRecordConfig) (cl rn L : Nat),
      fc.file_length = some L →
      resolveByteLength ds fc cl rn none = .ok ((L : Nat) : Int)) ∧
    (∀ (ds : Datastore) (fc : FileRecordConfig) (cl rn : Nat)
      (vals : List Int),
      fc.file_length = none →
      fc.length_register_enabled = true →
      fc.length_function_code = 3 →
      dsGetRange ds .holding_register fc.length_address
        fc.length_quantity = some vals →
      resolveByteLength ds fc cl rn none =
        .ok (decodeLengthWords fc.length_quantity vals)) ∧
    (∀ (ds : Datastore) (fc : FileRecordConfig) (cl rn : Nat),
      fc.file_length = none →
      fc.length_register_enabled = false →
      resolveByteLength ds fc cl rn none =
        .ok (((cl : Nat) : Int) - ((rn * 2 : Nat) : Int))) ∧
    (∀ (st : ModbusSlave) (fn : Nat) (fc : FileRecordConfig)
      (content : List Nat),
      st.config.enable_file_operations = true →
      find_file_config st.config fn = some fc →
      st.file_data fn = some content →
      fc.file_length = some 10 →
      10 ≤ content.length →
      (st.read_file_record fn 0 none).1 =
        { success := true, data := .bytes (content.take 10),
          error := none }) := by
  refine ⟨fun ds fc cl rn w => rfl, ?_, ?_, ?_, ?_⟩
  · intro ds fc cl rn L hL
    simp [resolveByteLength, hL]
  · intro ds fc cl rn vals hL henab hfc3 hget
    simp [resolveByteLength, hL, henab, hfc3, hget]
  · intro ds fc cl rn hL henab
    simp [resolveByteLength, hL, henab]
  · intro st fn fc content hen hfc hfd hL hlen
    have hres : resolveByteLength (applyTrigger st fc fn).datastore fc
        content.length 0 none = .ok ((10 : Nat) : Int) := by
      simp [resolveByteLength, hL]
    have h := read_ok_helper st fn 0 none fc content ((10 : Nat) : Int)
      hen hfc hfd hres
    rw [h, pySliceTo_min_eq content (0 * 2) ((10 : Nat) : Int) (by omega)]
    simp

/-- Witness for `length_resolution_precedence`, all on the instance whose
length register (holding register 0) reports 4: a caller-supplied 2-word
length resolves to 4 bytes; fixed-length file 3 resolves to 10 bytes and
reads back its first 10 bytes; the register-only config resolves to the
register decode 4; a config with the register disabled resolves to the
buffer remainder 4 - 1*2 = 2. -/
theorem length_resolution_precedence_witness :
    (resolveByteLength sampleSlaveFilesReg.datastore sampleFileFixed 12 0
      (some 2) = .ok (Int.ofNat 4)) ∧
    (resolveByteLength sampleSlaveFilesReg.datastore sampleFileFixed 12 0
      none = .ok (Int.ofNat 10)) ∧
    (resolveByteLength sampleSlaveFilesReg.datastore sampleFileRegOnly 12 0
      none = .ok (Int.ofNat 4)) ∧
    (resolveByteLength sampleSlaveFilesReg.datastore sampleFileBig 4 1
      none = .ok (Int.ofNat 2)) ∧
    (sampleSlaveFilesReg.read_file_record 3 0 none).1 =
      { success := true,
        data := .bytes [10, 11, 12, 13, 14, 15, 16, 17, 18, 19],
        error := none } := by
  have h3 := length_resolution_precedence.2.2.1
    sampleSlaveFilesReg.datastore sampleFileRegOnly 12 0 [4]
    rfl rfl rfl rfl
  have h4 := length_resolution_precedence.2.2.2.1
    sampleSlaveFilesReg.datastore sampleFileBig 4 1 rfl rfl
  refine ⟨length_resolution_precedence.1 sampleSlaveFilesReg.datastore
    sampleFileFixed 12 0 2, length_resolution_precedence.2.1
    sampleSlaveFilesReg.datastore sampleFileFixed 12 0 10 rfl,
    by rw [h3]; rfl, by rw [h4]; rfl, ?_⟩
  have h := length_resolution_precedence.2.2.2.2 sampleSlaveFilesReg 3
    sampleFileFixed [10, 11, 12, 13, 14, 15, 16, 17, 18, 19, 20, 21]
    rfl rfl rfl rfl (by decide)
  rw [h]
  rfl

/-! ### C6: file write/read round trip -/

theorem write_ok_helper (st : ModbusSlave) (fn rn : Nat) (b : List Nat)
    (fc : FileRecordConfig) (content : List Nat)
    (hen : st.config.enable_file_operations = true)
    (hfc : find_file_config st.config fn = some fc)
    (hro : fc.read_only = false)
    (hfd : st.file_data fn = some content)
    (hsz : rn * 2 + b.length ≤ fc.max_size)
    (hpath : fc.file_path ≠ "") :
    st.write_file_record fn rn b =
      ({ success := true, data := .msg "written" },
       { st with
         file_data := setFD st.file_data fn (newFileContent content rn b),
         disk := setDisk st.disk fc.file_path
           (newFileContent content rn b) }) := by
  have hns : ¬ fc.max_size < rn * 2 + b.length := Nat.not_lt.mpr hsz
  unfold ModbusSlave.write_file_record
  simp [hen, hfc, hro, hfd, hns, hpath, newFileContent]

theorem newFileContent_min_length (content : List Nat) (rn : Nat)
    (b : List Nat) :
    rn * 2 + b.length ≤ (newFileContent content rn b).length := by
  simp only [newFileContent]
  by_cases h : content.length < rn * 2 + b.length
  · rw [if_pos h]
    simp only [List.length_append, List.length_take, List.length_drop,
      List.length_replicate]
    omega
  · rw [if_neg h]
    simp only [List.length_append, List.length_take, List.length_drop]
    omega

theorem newFileContent_slice (content : List Nat) (rn : Nat)
    (b : List Nat) :
    ((newFileContent content rn b).take (rn * 2 + b.length)).drop (rn * 2)
      = b := by
  simp only [newFileContent]
  generalize hE : (if content.length < rn * 2 + b.length then
    content ++ List.replicate (rn * 2 + b.length - content.length) 0
    else content) = ext
  have hextlen : rn * 2 + b.length ≤ ext.length := by
    rw [← hE]
    by_cases h : content.length < rn * 2 + b.length
    · rw [if_pos h]; simp; omega
    · rw [if_neg h]; omega
  have hA : (ext.take (rn * 2)).length = rn * 2 := by
    simp
    omega
  rw [List.take_left' (by simp; omega :
    (ext.take (rn * 2) ++ b).length = rn * 2 + b.length)]
  rw [List.drop_left' hA]

/-- C6: on a configured, non-read-only file with data present and a
configured path, a write of an even-length block within `max_size` succeeds,
the immediate read of the same word range returns the block exactly, and the
on-disk copy equals the in-memory buffer afterwards. -/
theorem write_file_record_roundtrip (st : ModbusSlave) (fn : Nat)
    (fc : FileRecordConfig) (content : List Nat) (rn : Nat) (b : List Nat)
    (hen : st.config.enable_file_operations = true)
    (hfc : find_file_config st.config fn = some fc)
    (hro : fc.read_only = false)
    (hfd : st.file_data fn = some content)
    (hsz : rn * 2 + b.length ≤ fc.max_size)
    (hev : b.length % 2 = 0)
    (hpath : fc.file_path ≠ "") :
    (st.write_file_record fn rn b).1.success = true ∧
    (ModbusSlave.read_file_record (st.write_file_record fn rn b).2 fn rn
      (some (b.length / 2))).1 =
      { success := true, data := .bytes b, error := none } ∧
    (st.write_file_record fn rn b).2.disk fc.file_path =
      (st.write_file_record fn rn b).2.file_data fn := by
  have hwrite := write_ok_helper st fn rn b fc content hen hfc hro hfd hsz
    hpath
  have hhalf : b.length / 2 * 2 = b.length :=
    Nat.div_mul_cancel (Nat.dvd_of_mod_eq_zero hev)
  refine ⟨by rw [hwrite], ?_, by rw [hwrite]; simp [setFD, setDisk]⟩
  rw [hwrite]
  have hread := read_ok_helper
    { st with
      file_data := setFD st.file_data fn (newFileContent content rn b),
      disk := setDisk st.disk fc.file_path (newFileContent content rn b) }
    fn rn (some (b.length / 2)) fc (newFileContent content rn b)
    ((b.length / 2 * 2 : Nat) : Int) hen hfc (by simp [setFD]) rfl
  rw [hread]
  rw [pySliceTo_min_eq _ (rn * 2) _ (by omega)]
  rw [hhalf]
  simp only [Int.toNat_ofNat]
  rw [List.take_drop, newFileContent_slice]

/-- Witness for `write_file_record_roundtrip`: writing [21, 22] at word
offset 1 of file 2 and reading one word back returns [21, 22]; disk and
buffer agree. -/
theorem write_file_record_roundtrip_witness :
    (sampleSlaveFiles.write_file_record 2 1 [21, 22]).1.success = true ∧
    (ModbusSlave.read_file_record
      (sampleSlaveFiles.write_file_record 2 1 [21, 22]).2 2 1 (some 1)).1 =
      { success := true, data := .bytes [21, 22], error := none } ∧
    (sampleSlaveFiles.write_file_record 2 1 [21, 22]).2.disk "f2.bin" =
      (sampleSlaveFiles.write_file_record 2 1 [21, 22]).2.file_data 2 := by
  have h := write_file_record_roundtrip sampleSlaveFiles 2 sampleFileBig
    [5, 6, 7, 8] 1 [21, 22] rfl rfl rfl rfl (by decide) rfl (by decide)
  exact ⟨h.1, h.2.1, h.2.2⟩

/-! ### C9: the 1- and 2-word length decodes are instances of the generic
formula -/

theorem int_shl16_lor_eq_add (a b : Int) (ha : 0 ≤ a) (hb0 : 0 ≤ b)
    (hb : b < 65536) : Int.lor (a * 2 ^ 16) b = a * 2 ^ 16 + b := by
  obtain ⟨m, rfl⟩ := Int.eq_ofNat_of_zero_le ha
  obtain ⟨n, rfl⟩ := Int.eq_ofNat_of_zero_le hb0
  have hcast : ((m : Nat) : Int) * 2 ^ 16 = ((m * 2 ^ 16 : Nat) : Int) := by
    push_cast
    ring
  rw [hcast]
  have hlor : Int.lor ((m * 2 ^ 16 : Nat) : Int) ((n : Nat) : Int) =
      ((m * 2 ^ 16 ||| n : Nat) : Int) := rfl
  rw [hlor]
  have hn : n < 2 ^ 16 := by exact_mod_cast hb
  have hor := Nat.mul_add_lt_is_or hn m
  rw [Nat.mul_comm] at hor
  rw [← hor]
  push_cast
  ring

/-- C9: the length-register decode's one-word and two-word special cases
agree with the generic N-word big-endian sum on every list of 16-bit
words of the matching length. -/
theorem decode_special_cases_match_generic (vs : List Int)
    (h16 : ∀ v ∈ vs, 0 ≤ v ∧ v < 65536) :
    (vs.length = 1 → decodeLengthWords 1 vs = genericWordSum 1 vs) ∧
    (vs.length = 2 → decodeLengthWords 2 vs = genericWordSum 2 vs) := by
  constructor
  · intro h1
    obtain ⟨a, rfl⟩ := List.length_eq_one.mp h1
    show a = pyShl a (16 * (1 - 1 - 0)) + 0
    simp [pyShl]
  · intro h2
    obtain ⟨a, b, rfl⟩ := List.length_eq_two.mp h2
    obtain ⟨ha, -⟩ := h16 a (by simp)
    obtain ⟨hb0, hb⟩ := h16 b (by simp)
    show Int.lor (pyShl a 16) b =
      pyShl a (16 * (2 - 1 - 0)) + (pyShl b (16 * (2 - 1 - 1)) + 0)
    simp only [pyShl]
    rw [int_shl16_lor_eq_add a b ha hb0 hb]
    ring
  
/-- Witness for `decode_special_cases_match_generic` on [7] and [2, 3]. -/
theorem decode_special_cases_match_generic_witness :
    decodeLengthWords 1 [7] = genericWordSum 1 [7] ∧
    decodeLengthWords 2 [2, 3] = genericWordSum 2 [2, 3] :=
  ⟨(decode_special_cases_match_generic [7] (by decide)).1 rfl,
   (decode_special_cases_match_generic [2, 3] (by decide)).2 rfl⟩

/-! ### C10: buffers never exceed max_size -/

theorem newFileContent_length (c : List Nat) (rn : Nat) (b : List Nat) :
    (newFileContent c rn b).length = max c.length (rn * 2 + b.length) := by
  simp only [newFileContent]
  by_cases h : c.length < rn * 2 + b.length
  · rw [if_pos h]
    simp only [List.length_append, List.length_take, List.length_drop,
      List.length_replicate]
    omega
  · rw [if_neg h]
    simp only [List.length_append, List.length_take, List.length_drop]
    omega

theorem loadFold_not_mem (l : List FileRecordConfig) (disk : DiskMap)
    (fd : FileData) (fn : Nat) (h : ∀ fc ∈ l, fc.file_number ≠ fn) :
    (l.foldl (loadFile disk) fd) fn = fd fn := by
  induction l generalizing fd with
  | nil => rfl
  | cons c rest ih =>
    rw [List.foldl_cons,
      ih _ (fun fc hfc => h fc (List.mem_cons_of_mem c hfc))]
    have hc := h c (List.mem_cons_self c rest)
    unfold loadFile
    cases disk c.file_path with
    | some bs => simp [setFD, Ne.symm hc]
    | none => simp [setFD, Ne.symm hc]

theorem loadFold_find (l : List FileRecordConfig) (disk : DiskMap)
    (fd : FileData) (fn : Nat) (fc : FileRecordConfig)
    (hdist : l.Pairwise (fun a b => a.file_number ≠ b.file_number))
    (hfind : l.find? (fun c => decide (c.file_number = fn)) = some fc) :
    ∃ bs, (l.foldl (loadFile disk) fd) fn = some bs ∧
      bs.length ≤ fc.max_size := by
  induction l generalizing fd with
  | nil => cases hfind
  | cons c rest ih =>
    rw [List.pairwise_cons] at hdist
    by_cases hc : c.file_number = fn
    · rw [List.find?_cons_of_pos _ (by simpa using hc)] at hfind
      have hfc : c = fc := by injection hfind
      subst hfc
      rw [List.foldl_cons]
      rw [loadFold_not_mem _ _ _ _
        (fun r hr heq => (hdist.1 r hr) (hc.trans heq.symm))]
      unfold loadFile
      cases disk c.file_path with
      | some bs =>
        exact ⟨bs.take c.max_size, by simp [setFD, hc], by simp⟩
      | none => exact ⟨[], by simp [setFD, hc], by simp⟩
    · rw [List.find?_cons_of_neg _ (by simpa using hc)] at hfind
      rw [List.foldl_cons]
      exact ih (loadFile disk fd c) hdist.2 hfind

theorem setFD_setFD (fd : FileData) (k : Nat) (v w : List Nat) :
    setFD (setFD fd k v) k w = setFD fd k w := by
  funext n
  by_cases h : n = k <;> simp [setFD, h]

theorem write_file_record_state (st : ModbusSlave) (fn rn : Nat)
    (data : List Nat) :
    (st.write_file_record fn rn data).2.config = st.config ∧
    ((st.write_file_record fn rn data).2.file_data = st.file_data ∨
     (st.write_file_record fn rn data).2.file_data =
       setFD st.file_data fn [] ∨
     (∃ fc, find_file_config st.config fn = some fc ∧
       rn * 2 + data.length ≤ fc.max_size ∧
       (st.write_file_record fn rn data).2.file_data =
         setFD st.file_data fn
           (newFileContent ((st.file_data fn).getD []) rn data))) := by
  unfold ModbusSlave.write_file_record
  by_cases hen : st.config.enable_file_operations
  · cases hfc : find_file_config st.config fn with
    | none => simp [hen, hfc]
    | some fc =>
      by_cases hro : fc.read_only
      · simp [hen, hfc, hro]
      · by_cases hsz : fc.max_size < rn * 2 + data.length
        · by_cases hnone : (st.file_data fn).isNone
          · simp [hen, hfc, hro, hsz, hnone]
          · simp [hen, hfc, hro, hsz, hnone]
        · by_cases hnone : (st.file_data fn).isNone
          · refine ⟨by simp [hen, hfc, hro, hsz, hnone], Or.inr (Or.inr
              ⟨fc, rfl, by omega, ?_⟩)⟩
            have hfdnone : st.file_data fn = none :=
              Option.isNone_iff_eq_none.mp hnone
            simp [hen, hfc, hro, hsz, hnone, setFD_setFD, hfdnone,
              newFileContent, setFD]
          · refine ⟨by simp [hen, hfc, hro, hsz, hnone], Or.inr (Or.inr
              ⟨fc, rfl, by omega, ?_⟩)⟩
            simp [hen, hfc, hro, hsz, hnone, newFileContent]
  · simp [hen]

/-- C10: every configured file's buffer is at most `max_size` bytes after
construction (the disk load reads at most `max_size` bytes; a missing file
yields an empty buffer), and the invariant is preserved by every
`write_file_record` call, successful or failed. -/
theorem file_size_invariant :
    (∀ (cfg : SlaveConfig) (disk : DiskMap), FileNumbersDistinct cfg →
      FileSizeInvariant (mkSlave cfg disk).1) ∧
    (∀ (st : ModbusSlave) (fn rn : Nat) (data : List Nat),
      FileSizeInvariant st →
      FileSizeInvariant (st.write_file_record fn rn data).2) := by
  constructor
  · intro cfg disk hdist n fc hfind
    show ((initFileRecords cfg disk n).getD []).length ≤ fc.max_size
    have hfind2 : cfg.file_records.find?
        (fun c => decide (c.file_number = n)) = some fc := hfind
    unfold initFileRecords
    by_cases hen : cfg.enable_file_operations
    · rw [if_pos hen]
      obtain ⟨bs, heq, hle⟩ :=
        loadFold_find cfg.file_records disk (fun _ => none) n fc hdist hfind2
      rw [heq]
      simpa using hle
    · rw [if_neg hen]
      simp
  · intro st fn rn data hinv n fc hfind
    obtain ⟨hcfg, hcase⟩ := write_file_record_state st fn rn data
    rw [hcfg] at hfind
    rcases hcase with h | h | ⟨fc2, hfc2, hsz, h⟩
    · rw [h]
      exact hinv n fc hfind
    · rw [h]
      by_cases hn : n = fn
      · subst hn
        simp [setFD]
      · simp only [setFD, if_neg hn]
        exact hinv n fc hfind
    · rw [h]
      by_cases hn : n = fn
      · subst hn
        have hfceq : fc = fc2 := by
          rw [hfind] at hfc2
          injection hfc2
        subst hfceq
        simp only [setFD, if_true, Option.getD_some]
        rw [newFileContent_length]
        have hcur := hinv n fc hfind
        omega
      · simp only [setFD, if_neg hn]
        exact hinv n fc hfind

/-- Witness for `file_size_invariant`: the sample file instance satisfies
the invariant after construction and after a write into file 2. -/
theorem file_size_invariant_witness :
    FileSizeInvariant (mkSlave sampleConfigFiles sampleDiskFiles).1 ∧
    FileSizeInvariant
      (sampleSlaveFiles.write_file_record 2 0 [30, 31, 32]).2 := by
  have h1 := file_size_invariant.1 sampleConfigFiles sampleDiskFiles
    (by
      unfold FileNumbersDistinct sampleConfigFiles
      simp [List.pairwise_cons, sampleFileSmall, sampleFileBig,
        sampleFileFixed])
  exact ⟨h1, file_size_invariant.2 sampleSlaveFiles 2 0 [30, 31, 32] h1⟩
